import Mathlib

/-!
Verification of the `mfd-kvm` KVM/libvirt automation layer.

The repository ships its unit tests (`src/tests/unit/test_mfd_kvm/`) and
example scripts; the implementation modules `mfd_kvm/hypervisor.py` and
`mfd_kvm/virsh.py` are not part of the provided sources.  The definitions
below are therefore shallow models written from the specification, with
every observable behaviour cross-checked against the expectations pinned
by the in-repository unit tests (mocked command results, expected command
strings, expected error messages and mock call counts).
-/

namespace MfdKvm

/-- Whether `needle` occurs as a contiguous run inside the character
list `hay`; scans every suffix of `hay`. -/
def containsSubList (needle : List Char) : List Char → Bool
  | [] => needle.isPrefixOf []
  | c :: rest => needle.isPrefixOf (c :: rest) || containsSubList needle rest

/-- Substring test used to model Python's `needle in haystack` membership
checks on stderr/stdout texts. -/
def containsSub (haystack needle : String) : Bool :=
  containsSubList needle.toList haystack.toList

/-- Characters remaining directly after the first occurrence of `needle`
inside `hay`, if `needle` occurs at all. -/
def afterSub (needle : List Char) : List Char → Option (List Char)
  | [] => if needle.isPrefixOf ([] : List Char) then some [] else none
  | c :: rest =>
      if needle.isPrefixOf (c :: rest) then some ((c :: rest).drop needle.length)
      else afterSub needle rest

/-- Lowercase rendering of a string, character by character. -/
def lowerStr (s : String) : String :=
  String.mk (s.toList.map Char.toLower)

/-- Whether `s` starts with the text `pre`. -/
def strStartsWith (s pre : String) : Bool :=
  pre.toList.isPrefixOf s.toList

/-- Decimal value of a digit list read left to right. -/
def digitsVal (acc : Nat) : List Char → Nat
  | [] => acc
  | c :: rest => digitsVal (acc * 10 + (c.toNat - 48)) rest

/-- Parse the leading decimal number of a character list, if any. -/
def leadingNat (l : List Char) : Option Nat :=
  match l.takeWhile Char.isDigit with
  | [] => none
  | ds => some (digitsVal 0 ds)

/-- Parse a string that consists entirely of decimal digits; any other
content (including the empty string) yields `none`. -/
def parseNat (s : String) : Option Nat :=
  if s.toList ≠ [] && s.toList.all Char.isDigit then some (digitsVal 0 s.toList)
  else none

/-- Split a character list at newline characters. -/
def splitLines : List Char → List (List Char)
  | [] => [[]]
  | c :: rest =>
      let r := splitLines rest
      if c = '\n' then [] :: r
      else
        match r with
        | h :: t => (c :: h) :: t
        | [] => [[c]]

/-- Hexadecimal rendering of a natural number, lowercase, zero-padded on
the left to `width` characters; mirrors Python `f"{n:0{width}x}"`. -/
def hexPad (width n : Nat) : String :=
  let ds := Nat.toDigits 16 n
  String.mk (List.replicate (width - ds.length) '0' ++ ds)

/-- PCI address record: domain, bus, slot, function.
Modelled from the spec: `PCIAddress` of the `mfd_typing` collaborator as
used by `mfd_kvm` (data model section 3), canonical string form
`dddd:bb:ss.f` with hexadecimal fields. -/
structure PCIAddress where
  domain : Nat
  bus : Nat
  slot : Nat
  func : Nat
deriving DecidableEq, Repr

/-- Canonical `dddd:bb:ss.f` rendering of a PCI address, e.g.
`0000:18:10.1` for domain 0, bus 24, slot 16, function 1. -/
def PCIAddress.render (a : PCIAddress) : String :=
  hexPad 4 a.domain ++ ":" ++ hexPad 2 a.bus ++ ":" ++ hexPad 2 a.slot
    ++ "." ++ String.mk (Nat.toDigits 16 a.func)

/-- Typed errors raised by the hypervisor facade.
Modelled from the spec: error kinds of `mfd_kvm.exceptions` (section 7):
execution errors carry the captured stderr, count mismatches carry the
actual and expected VF counts, PCI-controller exhaustion carries the
expected and created counts. -/
inductive KVMError where
  | execError (stderr : String)
  | vfMismatch (actual expected : Nat)
  | vfNotFound (iface : String)
  | notEnoughRam
  | notEnoughPci (expected created : Nat)
deriving DecidableEq, Repr

/-- Human-readable message of each typed error, mirroring the message
texts pinned by the unit tests. -/
def KVMError.message : KVMError → String
  | .execError stderr => stderr
  | .vfMismatch actual expected =>
      "Mismatched count of expected and created VFs " ++ toString actual
        ++ " != " ++ toString expected
  | .vfNotFound iface => "Not matched VFs for interface " ++ iface ++ "."
  | .notEnoughRam => "Not enough free RAM on SUT for VM."
  | .notEnoughPci expected created =>
      "Not enough free PCI devices. Cannot create expected number of PCI Controllers: expected: "
        ++ toString expected ++ ", created: " ++ toString created

/-- Typed errors raised by the virsh adapter.
Modelled from the spec: `VMNotRunKVM` and `VMMngIpNotAvailableKVM` of
`mfd_kvm.exceptions` (section 4.5). -/
inductive VirshError where
  | vmNotRun (tries : Nat)
  | mngIpNotAvailable (mac : String)
deriving DecidableEq, Repr

/-- Message text of the virsh adapter errors, as pinned by the tests. -/
def VirshError.message : VirshError → String
  | .vmNotRun tries => "VM was unable to boot after: " ++ toString tries ++ " retries!"
  | .mngIpNotAvailable mac => "VM is up but management IP is unavailable for MAC: " ++ mac ++ "!"

/-- Outcome of one synchronous remote command: the exit code together
with the captured stdout and stderr texts. -/
structure CmdResult where
  returnCode : Nat
  stdout : String
  stderr : String
deriving DecidableEq, Repr

/-- Modelled from the spec: `VirshInterface.dump_xml_from_vm` of the
missing `mfd_kvm/virsh.py`.  On a zero exit code it returns the raw XML
text and logs success; on a nonzero exit code it logs the failure and
returns `none` instead of raising (section 4.5 capability set; pinned by
`test_dump_xml_from_vm_fail`). -/
def dump_xml_from_vm (res : CmdResult) : Option String × String :=
  if res.returnCode ≠ 0 then
    (none, "Unable to fetch xml.")
  else
    (some res.stdout, "XML dumped properly.")

/-- VF id carried by one `ls -l` symlink line: the decimal number `N` of
the `virtfnN -> ../<pci>` entry, taken from the link name (not from the
PCI target after the arrow). -/
def lineVfId (line : List Char) : Option Nat :=
  match afterSub "virtfn".toList line with
  | some rest => leadingNat rest
  | none => none

/-- All VF ids found in a raw symlink-listing output, one per matching
line, in order of appearance. -/
def vfIdsFromListing (out : String) : List Nat :=
  (splitLines out.toList).filterMap lineVfId

/-- Modelled from the spec: `KVMHypervisor.get_vfs_id_for_pf` of the
missing `mfd_kvm/hypervisor.py` (section 4.4, VF/PCI address math and
section 8): parses the `ls -l` symlink listing of `virtfnN` entries,
extracting each id as the integer `N` of the link name; output matching
no `virtfn` entry raises the typed VF error. -/
def get_vfs_id_for_pf (iface : String) (out : String) : Except KVMError (List Nat) :=
  let ids := vfIdsFromListing out
  if ids.isEmpty then .error (.vfNotFound iface) else .ok ids

/-- Modelled from the spec: the shared body of
`KVMHypervisor.check_number_of_vfs` and `check_number_of_vfs_by_pci` of
the missing `mfd_kvm/hypervisor.py` (section 4.4): re-lists the VF
symlinks; a listing failure whose stderr reports "No such file or
directory" is treated as zero VFs; any count mismatch raises the typed
count-mismatch error carrying actual and expected counts. -/
def check_number_of_vfs (res : CmdResult) (vfs_count : Nat) : Except KVMError Unit :=
  let actual :=
    if containsSub res.stderr "No such file or directory" then 0
    else (vfIdsFromListing res.stdout).length
  if actual = vfs_count then .ok () else .error (.vfMismatch actual vfs_count)

/-- The sysfs write command `echo <n> > <device>/sriov_numvfs`. -/
def sriovWriteCmd (device : String) (n : Nat) : String :=
  "echo " ++ toString n ++ " > " ++ device ++ "/sriov_numvfs"

/-- Modelled from the spec: the write sequence issued by
`KVMHypervisor.set_number_of_vfs_for_pf[_by_pci]` of the missing
`mfd_kvm/hypervisor.py` (section 4.4): the desired count is written to
the PF's `sriov_numvfs` node; if that first write fails with the
"Device or resource busy" error, the fallback writes 0 first and then
the desired count again.  The result is the ordered list of issued
sysfs write commands. -/
def sriovWriteTrace (device : String) (vfs_count : Nat) (firstWrite : CmdResult) : List String :=
  let w := sriovWriteCmd device
  if firstWrite.returnCode ≠ 0 && containsSub firstWrite.stderr "Device or resource busy" then
    [w vfs_count, w 0, w vfs_count]
  else
    [w vfs_count]

/-- `set_number_of_vfs_for_pf`: the PF is named by its network interface,
so the sysfs node lives under `/sys/class/net/<iface>/device`. -/
def set_number_of_vfs_for_pf (iface : String) (vfs_count : Nat)
    (firstWrite : CmdResult) : List String :=
  sriovWriteTrace ("/sys/class/net/" ++ iface ++ "/device") vfs_count firstWrite

/-- `set_number_of_vfs_for_pf_by_pci`: the PF is named by its PCI
address, so the sysfs node lives under `/sys/bus/pci/devices/<pci>`. -/
def set_number_of_vfs_for_pf_by_pci (pci : PCIAddress) (vfs_count : Nat)
    (firstWrite : CmdResult) : List String :=
  sriovWriteTrace ("/sys/bus/pci/devices/" ++ pci.render) vfs_count firstWrite

/-- Fallback log line of the dynamic RAM sizing, as pinned by
`test_get_dynamic_ram_no_output_from_awk_command`. -/
def dynamicRamFallbackLog : String :=
  "There's not output from awk, proceeding with default 2000 MB"

/-- Modelled from the spec: `KVMHypervisor.get_dynamic_ram` of the
missing `mfd_kvm/hypervisor.py` (sections 4.4 and 8): the free host
memory reported by the `awk` aggregate (in MB) minus a fixed 10000 MB
host reserve is divided by `vm_number` and clamped to the
[2000 MB, 10000 MB] band; if the query yields no usable output the
minimum 2000 MB is returned together with the logged fallback message;
if the free memory cannot even cover the host reserve the typed
"not enough RAM" error is raised.  The result pairs the chosen RAM size
with the emitted log line, if any. -/
def get_dynamic_ram (awkOut : String) (vm_number : Nat) :
    Except KVMError (Nat × Option String) :=
  match parseNat awkOut with
  | none => .ok (2000, some dynamicRamFallbackLog)
  | some free =>
      if free < 10000 then .error .notEnoughRam
      else .ok (min (max ((free - 10000) / vm_number) 2000) 10000, none)

/-- Modelled from the spec: `KVMHypervisor.stop_all_vms` of the missing
`mfd_kvm/hypervisor.py` (section 4.4): for every listed VM the stop is
issued and the retry engine polls for the target state; the overall
result is the conjunction of the per-VM poll results, and later VMs are
still attempted after an earlier failure (pinned by
`test_stop_all_vms_fails`: both VMs receive the shutdown even though
every poll fails).  `reached` tells whether a VM's poll converged; the
result pairs the ordered list of VMs that received the stop command with
the overall success flag. -/
def stop_all_vms (reached : String → Bool) : List String → List String × Bool
  | [] => ([], true)
  | vm :: rest =>
      let r := stop_all_vms reached rest
      (vm :: r.1, reached vm && r.2)

/-- Modelled from the spec: `KVMHypervisor.start_all_vms` of the missing
`mfd_kvm/hypervisor.py`.  The spec (section 4.4) words it together with
`stop_all_vms`, but the loop structure is pinned by
`test_start_all_vms_fails` (src/tests/unit/test_mfd_kvm/test_hypervisor.py,
lines 625-632): with two VMs and every poll failing, `start_vm` is
called exactly once, so the loop returns at the first VM that fails to
reach its target state.  The result pairs the ordered list of VMs that
received the start command with the overall success flag. -/
def start_all_vms (reached : String → Bool) : List String → List String × Bool
  | [] => ([], true)
  | vm :: rest =>
      if reached vm then
        let r := start_all_vms reached rest
        (vm :: r.1, r.2)
      else
        ([vm], false)

/-- Modelled from the spec: the `VMParams` record of the missing
`mfd_kvm/hypervisor.py` (data model section 3), with the defaults pinned
by the unit tests (`memory=1024`, `cpu_count=2`, machine `pc`, bridge
`br0`, graphics `none`, disk cloning enabled).  Paths are modelled as
plain strings. -/
structure VMParams where
  name : String := ""
  cpu_count : Nat := 2
  threads : Option Nat := none
  memory : Nat := 1024
  machine : String := "pc"
  os_variant : Option String := none
  mac_address : String := ""
  bridge_name : String := "br0"
  disk : Option String := none
  disk_bus : Option String := none
  clone_disk : Bool := true
  target_hd_clone_disk : Option String := none
  boot_order : Option String := none
  graphics : String := "none"
  cpu : Option String := none
  arch : Option String := none
deriving DecidableEq, Repr

/-- Disk path referenced by the install command: when a disk source and a
clone destination are both set (and cloning is enabled) the cloned image
`<target>/<name>` is used, otherwise the source path is used in place. -/
def VMParams.diskPath (p : VMParams) : Option String :=
  match p.disk with
  | none => none
  | some d =>
      if p.clone_disk then
        match p.target_hd_clone_disk with
        | some t => some (t ++ "/" ++ p.name)
        | none => some d
      else some d

/-- The flag classes of the `virt-install` command, in the role they play
in the rendered command line. -/
inductive FlagTag where
  | nameTag | memoryTag | vcpusTag | machineTag | consoleTag | iommuTag
  | featuresTag | networkTag | osVariantTag | diskTag | archTag | bootTag
  | graphicsTag | cpuTag
deriving DecidableEq, Repr

/-- The fixed order in which the command builder emits flags. -/
def canonicalFlagOrder : List FlagTag :=
  [.nameTag, .memoryTag, .vcpusTag, .machineTag, .consoleTag, .iommuTag,
   .featuresTag, .networkTag, .osVariantTag, .diskTag, .archTag, .bootTag,
   .graphicsTag, .cpuTag]

/-- `--vcpus=<n>[,threads=<t>]` segment. -/
def vcpusSeg (p : VMParams) : String :=
  "--vcpus=" ++ toString p.cpu_count ++
    (match p.threads with
     | some t => ",threads=" ++ toString t
     | none => "")

/-- `--network=bridge:<bridge>,mac=<mac>,model=virtio` segment; the MAC
address is rendered lowercase. -/
def networkSeg (p : VMParams) : String :=
  "--network=bridge:" ++ p.bridge_name ++ ",mac=" ++ lowerStr p.mac_address
    ++ ",model=virtio"

/-- `--disk=none` when no disk is set, else `--disk path=<p>[,bus=<b>]`. -/
def diskSeg (p : VMParams) : String :=
  match p.diskPath with
  | none => "--disk=none"
  | some d =>
      "--disk path=" ++ d ++
        (match p.disk_bus with
         | some b => ",bus=" ++ b
         | none => "")

/-- `--boot=<order>,uefi` segment: the template default order is
`network,hd` without a disk and `hd` with one; an explicit boot order
overrides the non-uefi portion. -/
def bootSeg (p : VMParams) : String :=
  "--boot=" ++
    (match p.boot_order with
     | some b => b
     | none => if p.disk.isSome then "hd" else "network,hd") ++ ",uefi"

/-- IOMMU feature flag emitted for large-vCPU topologies. -/
def iommuSeg : String :=
  "--iommu model=intel,driver.intremap=on,driver.eim=on,driver.caching_mode=on"

/-- APIC feature flag emitted for large-vCPU topologies. -/
def featuresSeg : String :=
  "--features apic=on,ioapic.driver=qemu"

/-- Modelled from the spec: the command builder of the missing
`mfd_kvm/hypervisor.py` (section 4.1): the ordered, tagged flag segments
of the `virt-install` command for a `VMParams`.  Mandatory flags are
always present; the IOMMU/APIC flags appear only when the vCPU count
exceeds 128, and the os-variant, architecture and CPU-feature flags only
when the corresponding optional field is set. -/
def segments (p : VMParams) : List (FlagTag × String) :=
  [(.nameTag, "--name=" ++ p.name),
   (.memoryTag, "--memory=" ++ toString p.memory),
   (.vcpusTag, vcpusSeg p),
   (.machineTag, "--machine=" ++ p.machine),
   (.consoleTag, "--noautoconsole")]
  ++ (if 128 < p.cpu_count then [(FlagTag.iommuTag, iommuSeg), (FlagTag.featuresTag, featuresSeg)] else [])
  ++ [(.networkTag, networkSeg p)]
  ++ (match p.os_variant with
      | some v => [(FlagTag.osVariantTag, "--os-variant=" ++ v)]
      | none => [])
  ++ [(.diskTag, diskSeg p)]
  ++ (match p.arch with
      | some a => [(FlagTag.archTag, "--arch " ++ a)]
      | none => [])
  ++ [(.bootTag, bootSeg p),
      (.graphicsTag, "--graphics " ++ p.graphics)]
  ++ (match p.cpu with
      | some c => [(FlagTag.cpuTag, "--cpu=" ++ c)]
      | none => [])

/-- The rendered `virt-install` command: the space-joined segments. -/
def installCommand (p : VMParams) : String :=
  String.intercalate " " ("virt-install" :: (segments p).map Prod.snd)

/-- Outcome of one attempted execution of the install command. -/
inductive CmdOutcome where
  | ok
  | err (stderr : String)
deriving DecidableEq, Repr

/-- Stderr pattern of the virt-install rejection "OS name is required";
the retry appends `--osinfo detect=on,require=off`. -/
def osNamePattern : String := "OS name is required"

/-- Stderr pattern of the virt-install rejection "install method must be
specified"; the retry appends `--import`. -/
def installMethodPattern : String := "An install method must be specified"

/-- Result of `create_vm`: the ordered list of issued install commands
together with the final outcome (VM name or propagated error). -/
structure CreateVmResult where
  commands : List String
  result : Except KVMError String
deriving Repr

/-- Modelled from the spec: `KVMHypervisor.create_vm` of the missing
`mfd_kvm/hypervisor.py` (section 4.4, VM lifecycle): the install command
is built and executed; on a first failure the stderr is inspected for
the two known virt-install rejection patterns and, if matched, the
command is rebuilt with the respective explicit suffix and retried
exactly once; any other failure propagates unchanged.  On success the
VM name from the params is returned.  `first` and `second` are the
outcomes the external transport gives to the first and (when issued)
retried command. -/
def create_vm (p : VMParams) (first second : CmdOutcome) : CreateVmResult :=
  let cmd := installCommand p
  match first with
  | .ok => ⟨[cmd], .ok p.name⟩
  | .err stderr =>
      if containsSub stderr osNamePattern then
        let cmd2 := cmd ++ " --osinfo detect=on,require=off"
        match second with
        | .ok => ⟨[cmd, cmd2], .ok p.name⟩
        | .err e2 => ⟨[cmd, cmd2], .error (.execError e2)⟩
      else if containsSub stderr installMethodPattern then
        let cmd2 := cmd ++ " --import"
        match second with
        | .ok => ⟨[cmd, cmd2], .ok p.name⟩
        | .err e2 => ⟨[cmd, cmd2], .error (.execError e2)⟩
      else ⟨[cmd], .error (.execError stderr)⟩

/-- All (slot, function) pairs of one bus that lie at or after the given
starting coordinate, in allocation order: the function cycles 0-7 and
then the slot increments, slots running 0-31. -/
def controllerCandidates (firstSlot firstFunc : Nat) : List (Nat × Nat) :=
  ((List.range 32).flatMap fun s => (List.range 8).map fun f => (s, f)).filter
    fun c => decide (firstSlot < c.1) || (decide (firstSlot = c.1) && decide (firstFunc ≤ c.2))

/-- The attach loop of `attach_pci_controllers`: walks the candidate
addresses while controllers are still needed, attaching at each one;
an attach failure ("attempted double use of PCI address") is logged and
the loop continues with the next candidate.  Returns the attempted
addresses and the number of successfully attached controllers. -/
def attachLoop (attachOk : Nat × Nat → Bool) :
    Nat → List (Nat × Nat) → List (Nat × Nat) × Nat
  | _, [] => ([], 0)
  | 0, _ => ([], 0)
  | needed + 1, c :: rest =>
      if attachOk c then
        let r := attachLoop attachOk needed rest
        (c :: r.1, r.2 + 1)
      else
        let r := attachLoop attachOk (needed + 1) rest
        (c :: r.1, r.2)

/-- Observable outcome of `attach_pci_controllers`: the attempted
controller addresses, the number created, whether the VM was restarted
at the end, and the typed error, if any. -/
structure AttachControllersResult where
  attempts : List PCIAddress
  created : Nat
  restarted : Bool
  error : Option KVMError
deriving DecidableEq, Repr

/-- Modelled from the spec: `KVMHypervisor.attach_pci_controllers` of the
missing `mfd_kvm/hypervisor.py` (sections 4.4 and 8): after shutting the
VM down it incrementally allocates controller addresses from the given
starting coordinates (function cycling 0-7, then slot up to 31, on the
given bus), stopping once `number_of_devices` controllers attached or
the address space is exhausted; individual attach failures caused by
"attempted double use of PCI address" are logged and skipped; if fewer
than requested could be created the typed error naming expected and
created counts is raised; the VM is restarted at the end whenever at
least one controller was attached.  `attachOk` tells whether the attach
at a candidate address succeeds. -/
def attach_pci_controllers (attachOk : Nat × Nat → Bool)
    (number_of_devices first_bus first_slot first_func : Nat) :
    AttachControllersResult :=
  let r := attachLoop attachOk number_of_devices (controllerCandidates first_slot first_func)
  { attempts := r.1.map fun c => ⟨0, first_bus, c.1, c.2⟩
    created := r.2
    restarted := decide (1 ≤ r.2)
    error :=
      if r.2 < number_of_devices then some (.notEnoughPci number_of_devices r.2)
      else none }

/-- One parsed row of the QEMU-guest-agent interface-address table: the
(lowercased) MAC address of the owning interface, the protocol column
and the address column. -/
structure AgentRow where
  mac : String
  proto : String
  addr : String
deriving DecidableEq, Repr

/-- One attempt of the agent query: either the query itself failed, or
it answered with a parsed table. -/
inductive AgentAnswer where
  | failed
  | table (rows : List AgentRow)
deriving DecidableEq, Repr

/-- Loopback (`127.*`) and link-local (`169.254.*`) IPv4 addresses are
excluded from management-IP candidates. -/
def isLocalAddr (a : String) : Bool :=
  strStartsWith a "127." || strStartsWith a "169.254."

/-- The address column carries a `<ip>/<mask>` form; the IP is the part
before the slash. -/
def addrIp (a : String) : String :=
  String.mk (a.toList.takeWhile fun c => c ≠ '/')

/-- First IPv4 address of the given MAC that survives the loopback /
link-local filter, if any. -/
def goodIpForMac (mac : String) (rows : List AgentRow) : Option String :=
  rows.findSome? fun r =>
    if r.mac == lowerStr mac && r.proto == "ipv4" && !isLocalAddr (addrIp r.addr) then
      some (addrIp r.addr)
    else none

/-- Retry loop of `get_mng_ip_for_vm`: walks the per-attempt answers,
skipping failed queries, returning the first usable IP; the flag records
whether any attempt answered at all. -/
def mngIpLoop (mac : String) : List AgentAnswer → Bool → Option String × Bool
  | [], answered => (none, answered)
  | .failed :: rest, answered => mngIpLoop mac rest answered
  | .table rows :: rest, _ =>
      match goodIpForMac mac rows with
      | some ip => (some ip, true)
      | none => mngIpLoop mac rest true

/-- Modelled from the spec: `VirshInterface.get_mng_ip_for_vm` of the
missing `mfd_kvm/virsh.py` (section 4.5): the QEMU-guest-agent
interface-address query is retried up to `tries` times with a sleep
between attempts; if the agent never answers the typed "VM was unable
to boot" error is raised, and if an answer arrives but yields only
loopback/link-local addresses for the MAC the distinct typed
"management IP unavailable" error is raised.  `answers` lists the
outcome of each of the `tries` attempts. -/
def get_mng_ip_for_vm (mac : String) (answers : List AgentAnswer) :
    Except VirshError String :=
  match mngIpLoop mac answers false with
  | (some ip, _) => .ok ip
  | (none, true) => .error (.mngIpNotAvailable mac)
  | (none, false) => .error (.vmNotRun answers.length)

/-- Whether an agent-query attempt produced a table (i.e. the query
itself succeeded). -/
def isTableAnswer : AgentAnswer → Bool
  | .failed => false
  | .table _ => true

/-- Whether an attempt yielded no usable management IP for the MAC: a
failed query trivially has none; an answered table has none exactly when
the filtered IPv4 lookup comes up empty. -/
def answerHasNoGoodIp (mac : String) : AgentAnswer → Bool
  | .failed => true
  | .table rows => (goodIpForMac mac rows).isNone

/-- The two VM names used by the `stop_all_vms`/`start_all_vms` unit
tests. -/
def testVmNames : List String :=
  ["foo-055-045", "Base_R82.img_VM001_10.10.10.11"]

/-- The five-entry VF symlink listing of `test_get_vfs_id_for_pf`. -/
def testVfListing : String :=
  "lrwxrwxrwx 1 root root 0 Jan 27 13:53 /sys/class/net/eth1/device/virtfn0 -> ../0000:18:10.1\n"
    ++ "lrwxrwxrwx 1 root root 0 Jan 27 13:53 /sys/class/net/eth1/device/virtfn1 -> ../0000:18:10.3\n"
    ++ "lrwxrwxrwx 1 root root 0 Jan 27 13:53 /sys/class/net/eth1/device/virtfn2 -> ../0000:18:10.5\n"
    ++ "lrwxrwxrwx 1 root root 0 Jan 27 13:53 /sys/class/net/eth1/device/virtfn3 -> ../0000:18:10.7\n"
    ++ "lrwxrwxrwx 1 root root 0 Jan 27 13:53 /sys/class/net/eth1/device/virtfn25 -> ../0000:18:10.19"

/-- The three-entry VF symlink listing of `test_check_number_of_vfs_incorrect`. -/
def threeVfListing : String :=
  "lrwxrwxrwx 1 root root 0 Aug 11 13:01 /sys/class/net/eth1/device/virtfn0 -> ../0000:18:10.1\n"
    ++ "lrwxrwxrwx 1 root root 0 Aug 11 13:01 /sys/class/net/eth1/device/virtfn1 -> ../0000:18:10.3\n"
    ++ "lrwxrwxrwx 1 root root 0 Aug 11 13:01 /sys/class/net/eth1/device/virtfn2 -> ../0000:18:10.5"

/-- The stderr of a missing-VF listing
(`test_check_number_of_vfs_no_vfs_present`). -/
def noSuchFileStderr : String :=
  "ls: cannot access /sys/class/net/eth1/device/virtfn*: No such file or directory"

/-- The stderr of a busy `sriov_numvfs` write
(`test_set_number_of_vfs_for_pf_already_configured_flow`). -/
def busyStderr : String :=
  "echo: write error: Device or resource busy"

/-- The virt-install stderr of `test_create_vm_error__osinfo_handle`. -/
def osinfoStderr : String :=
  "\n                --os-variant/--osinfo OS name is required, but no value was\n"
    ++ "               set or detected.\n"
    ++ "               This is now a fatal error. Specifying an OS name is required\n"
    ++ "               for modern, performant, and secure virtual machine defaults.\n"
    ++ "               You can see a full list of possible OS name values with:\n"
    ++ "                  virt-install --osinfo list\n"
    ++ "               If your Linux distro is not listed, try one of generic values\n"
    ++ "               such as: linux2022, linux2020, linux2018, linux2016\n"
    ++ "               If you just need to get the old behavior back, you can use:\n"
    ++ "                 --osinfo detect=on,require=off\n"
    ++ "               Or export VIRTINSTALL_OSINFO_DISABLE_REQUIRE=1"

/-- The virt-install stderr of `test_create_vm_error_instalation_method_handle`. -/
def importStderr : String :=
  "\n                ERROR\n"
    ++ "                An install method must be specified\n"
    ++ "                (--location URL, --cdrom CD/ISO, --pxe, --import, --boot hd|cdrom|...)"

/-- The `VMParams` of the create-vm retry tests: a named image cloned
into `/away` before installation. -/
def cloneVmParams : VMParams :=
  { name := "foo.img", os_variant := some "rhel8.1",
    mac_address := "AA:BB:CC:DD:EE:62", disk := some "/home/disk.img",
    target_hd_clone_disk := some "/away" }

/-- The `VMParams` of `test_create_vm`. -/
def testCreateVmParams : VMParams :=
  { name := "foo", os_variant := some "rhel8.1",
    mac_address := "AA:BB:CC:DD:EE:62" }

/-- The `VMParams` of `test_create_vm_with_large_vcpu`. -/
def largeVcpuParams : VMParams :=
  { name := "foo", os_variant := some "rhel8.1",
    mac_address := "AA:BB:CC:DD:EE:62", cpu_count := 256 }

/-- The parsed rows of `test_get_guest_mng_ip_not_found_localhost`: the
agent answers, but the queried MAC's row carries no address and the only
IPv4 row is the loopback. -/
def localhostRows : List AgentRow :=
  [⟨"00:00:00:00:00:00", "ipv4", "127.0.0.1/8"⟩,
   ⟨"-", "ipv6", "::1/128"⟩,
   ⟨"aa:bb:cc:dd:ee:ff", "N/A", "N/A"⟩]

/-- The parsed rows of `test_get_guest_mng_ip_local_found_windows`: the
queried MAC resolves only to a link-local IPv4 address. -/
def windowsLocalRows : List AgentRow :=
  [⟨"52:54:00:5b:da:c4", "ipv6", "fe80::650c:361:4b6:28c1%2/64"⟩,
   ⟨"52:54:00:5b:da:c4", "ipv4", "169.254.40.193/16"⟩,
   ⟨"-", "ipv4", "127.0.0.1/8"⟩]

/-! ### Supporting lemmas -/

/-- `stop_all_vms` issues the stop on every listed VM and succeeds
exactly when every poll converged. -/
theorem stop_all_vms_eq (reached : String → Bool) (vms : List String) :
    stop_all_vms reached vms = (vms, vms.all reached) := by
  induction vms with
  | nil => rfl
  | cons vm rest ih => simp [stop_all_vms, ih, List.all_cons]

/-- `start_all_vms` succeeds exactly when every poll converged. -/
theorem start_all_vms_ok_iff (reached : String → Bool) (vms : List String) :
    (start_all_vms reached vms).2 = vms.all reached := by
  induction vms with
  | nil => rfl
  | cons vm rest ih =>
      cases h : reached vm <;> simp [start_all_vms, h, ih, List.all_cons]

/-- When every poll converges, `start_all_vms` issues the start on every
listed VM. -/
theorem start_all_vms_issued_of_all (reached : String → Bool) (vms : List String)
    (h : ∀ vm ∈ vms, reached vm = true) :
    (start_all_vms reached vms).1 = vms := by
  induction vms with
  | nil => rfl
  | cons vm rest ih =>
      have h1 : reached vm = true := h vm (by simp)
      simp only [start_all_vms, h1, if_true]
      exact congrArg (vm :: ·) (ih fun v hv => h v (by simp [hv]))

/-- The attach loop creates as many controllers as it can: the requested
number if enough candidate attaches succeed, otherwise every successful
candidate. -/
theorem attachLoop_created_eq (attachOk : Nat × Nat → Bool) :
    ∀ (needed : Nat) (l : List (Nat × Nat)),
      (attachLoop attachOk needed l).2 = min needed (l.countP attachOk) := by
  intro needed l
  induction l generalizing needed with
  | nil => cases needed <;> simp [attachLoop]
  | cons c rest ih =>
      cases needed with
      | zero => simp [attachLoop]
      | succ n =>
          cases h : attachOk c
          · simp [attachLoop, h, ih, List.countP_cons]
          · simp [attachLoop, h, ih, List.countP_cons, Nat.succ_min_succ]

/-- Every address the attach loop attempts comes from the candidate
list. -/
theorem attachLoop_attempts_subset (attachOk : Nat × Nat → Bool) :
    ∀ (needed : Nat) (l : List (Nat × Nat)) (a : Nat × Nat),
      a ∈ (attachLoop attachOk needed l).1 → a ∈ l := by
  intro needed l
  induction l generalizing needed with
  | nil => intro a h; cases needed <;> simp [attachLoop] at h
  | cons c rest ih =>
      intro a h
      cases needed with
      | zero => simp [attachLoop] at h
      | succ n =>
          cases hc : attachOk c <;> simp [attachLoop, hc] at h <;>
            rcases h with h | h <;> simp [h] <;> exact Or.inr (ih _ a h)

/-- Candidate controller addresses stay within the PCI limits: slots
0-31 and functions 0-7. -/
theorem controllerCandidates_bounds (s f : Nat) (c : Nat × Nat)
    (h : c ∈ controllerCandidates s f) : c.1 ≤ 31 ∧ c.2 ≤ 7 := by
  have h1 := (List.mem_filter.mp h).1
  simp only [List.mem_flatMap, List.mem_map, List.mem_range] at h1
  obtain ⟨a, ha, b, hb, rfl⟩ := h1
  omega

/-- The emitted flag tags of any rendering follow the canonical flag
order. -/
theorem segments_tags_sublist (p : VMParams) :
    ((segments p).map Prod.fst).Sublist canonicalFlagOrder := by
  by_cases hn : 128 < p.cpu_count <;>
  rcases ho : p.os_variant with _ | v <;>
  rcases ha : p.arch with _ | a <;>
  rcases hc : p.cpu with _ | c <;>
  simp [segments, canonicalFlagOrder, hn, ho, ha, hc] <;>
  decide

/-- When no attempt yields a usable IP, the retry loop of
`get_mng_ip_for_vm` ends with no IP, remembering whether any attempt
answered at all. -/
theorem mngIpLoop_no_good (mac : String) (answers : List AgentAnswer)
    (h : ∀ a ∈ answers, answerHasNoGoodIp mac a = true) :
    ∀ b, mngIpLoop mac answers b = (none, b || answers.any isTableAnswer) := by
  induction answers with
  | nil => intro b; simp [mngIpLoop]
  | cons a rest ih =>
      intro b
      have hrest := ih fun x hx => h x (by simp [hx])
      cases a with
      | failed => simp [mngIpLoop, isTableAnswer, hrest]
      | table rows =>
          have hg : goodIpForMac mac rows = none := by
            have := h (.table rows) (by simp)
            simpa [answerHasNoGoodIp, Option.isNone_iff_eq_none] using this
          simp [mngIpLoop, hg, isTableAnswer, hrest]

/-! ### Claim theorems -/

/-- C1 (counterexample): with the two VMs of the unit tests and every
poll failing, `start_all_vms` issues the start command only for the
first VM — not for every VM in the list — exactly as pinned by
`test_start_all_vms_fails` (`start_vm.call_count == 1`).  `stop_all_vms`
does keep attempting both. -/
theorem start_all_vms_no_short_circuit_cex :
    (start_all_vms (fun _ => false) testVmNames).1 = ["foo-055-045"] ∧
    (start_all_vms (fun _ => false) testVmNames).1 ≠ testVmNames ∧
    (stop_all_vms (fun _ => false) testVmNames).1 = testVmNames := by
  refine ⟨rfl, ?_, rfl⟩
  decide

/-- C1 (amended): `stop_all_vms` issues the stop and polls on every VM
regardless of earlier failures and succeeds only if every VM reached its
target state; `start_all_vms` also succeeds only if every VM reached its
target state and starts every VM when all polls converge, but it returns
at the first VM whose poll fails, without attempting the remaining
VMs. -/
theorem stop_start_all_vms_spec (reached : String → Bool) (vms : List String) :
    (stop_all_vms reached vms).1 = vms ∧
    ((stop_all_vms reached vms).2 = true ↔ ∀ vm ∈ vms, reached vm = true) ∧
    ((start_all_vms reached vms).2 = true ↔ ∀ vm ∈ vms, reached vm = true) ∧
    ((∀ vm ∈ vms, reached vm = true) → (start_all_vms reached vms).1 = vms) ∧
    (∀ vm rest, reached vm = false → start_all_vms reached (vm :: rest) = ([vm], false)) := by
  refine ⟨?_, ?_, ?_, start_all_vms_issued_of_all reached vms, ?_⟩
  · exact congrArg Prod.fst (stop_all_vms_eq reached vms)
  · rw [stop_all_vms_eq]
    simp [List.all_eq_true]
  · rw [start_all_vms_ok_iff]
    simp [List.all_eq_true]
  · intro vm rest h
    simp [start_all_vms, h]

/-- C1 (witness): the amended statement evaluated on the unit-test VM
list: with converging polls both VMs are started; with failing polls the
loop stops after the first VM. -/
theorem stop_start_all_vms_spec_witness :
    (start_all_vms (fun _ => true) testVmNames).1 = testVmNames ∧
    start_all_vms (fun _ => false) ("foo-055-045" :: ["Base_R82.img_VM001_10.10.10.11"]) =
      (["foo-055-045"], false) :=
  ⟨(stop_start_all_vms_spec (fun _ => true) testVmNames).2.2.2.1 (by decide),
   (stop_start_all_vms_spec (fun _ => false) []).2.2.2.2
     "foo-055-045" ["Base_R82.img_VM001_10.10.10.11"] (by decide)⟩

/-- C2: on a first `virt-install` failure, a stderr matching the
OS-name-required pattern causes exactly one retry with
`--osinfo detect=on,require=off` appended; a stderr matching the
install-method-required pattern causes exactly one retry with
`--import` appended; any other stderr propagates unchanged with no
retry; a successful retry (and a successful first attempt) reports the
VM name from the params. -/
theorem create_vm_retry_spec (p : VMParams) (stderr : String) (second : CmdOutcome) :
    (containsSub stderr osNamePattern = true →
      (create_vm p (.err stderr) second).commands =
        [installCommand p, installCommand p ++ " --osinfo detect=on,require=off"] ∧
      (second = .ok → (create_vm p (.err stderr) second).result = .ok p.name)) ∧
    (containsSub stderr osNamePattern = false →
      containsSub stderr installMethodPattern = true →
      (create_vm p (.err stderr) second).commands =
        [installCommand p, installCommand p ++ " --import"] ∧
      (second = .ok → (create_vm p (.err stderr) second).result = .ok p.name)) ∧
    (containsSub stderr osNamePattern = false →
      containsSub stderr installMethodPattern = false →
      (create_vm p (.err stderr) second).commands = [installCommand p] ∧
      (create_vm p (.err stderr) second).result = .error (.execError stderr)) ∧
    (create_vm p .ok second).commands = [installCommand p] ∧
    (create_vm p .ok second).result = .ok p.name := by
  refine ⟨fun h1 => ?_, fun h1 h2 => ?_, fun h1 h2 => ?_, rfl, rfl⟩
  · cases second <;> simp [create_vm, h1]
  · cases second <;> simp [create_vm, h1, h2]
  · cases second <;> simp [create_vm, h1, h2]

/-- C2 (witness): the retry flow at the concrete stderr texts and params
of the unit tests; the retried commands are byte-identical to the
expected commands of the tests. -/
theorem create_vm_retry_spec_witness :
    (create_vm cloneVmParams (.err osinfoStderr) .ok).commands =
      ["virt-install --name=foo.img --memory=1024 --vcpus=2 --machine=pc --noautoconsole "
        ++ "--network=bridge:br0,mac=aa:bb:cc:dd:ee:62,model=virtio "
        ++ "--os-variant=rhel8.1 --disk path=/away/foo.img --boot=hd,uefi --graphics none",
       "virt-install --name=foo.img --memory=1024 --vcpus=2 --machine=pc --noautoconsole "
        ++ "--network=bridge:br0,mac=aa:bb:cc:dd:ee:62,model=virtio "
        ++ "--os-variant=rhel8.1 --disk path=/away/foo.img --boot=hd,uefi --graphics none"
        ++ " --osinfo detect=on,require=off"] ∧
    (create_vm cloneVmParams (.err osinfoStderr) .ok).result = .ok "foo.img" ∧
    (create_vm cloneVmParams (.err importStderr) .ok).commands =
      ["virt-install --name=foo.img --memory=1024 --vcpus=2 --machine=pc --noautoconsole "
        ++ "--network=bridge:br0,mac=aa:bb:cc:dd:ee:62,model=virtio "
        ++ "--os-variant=rhel8.1 --disk path=/away/foo.img --boot=hd,uefi --graphics none",
       "virt-install --name=foo.img --memory=1024 --vcpus=2 --machine=pc --noautoconsole "
        ++ "--network=bridge:br0,mac=aa:bb:cc:dd:ee:62,model=virtio "
        ++ "--os-variant=rhel8.1 --disk path=/away/foo.img --boot=hd,uefi --graphics none"
        ++ " --import"] := by
  have h1 := (create_vm_retry_spec cloneVmParams osinfoStderr .ok).1 (by decide)
  have h2 := (create_vm_retry_spec cloneVmParams importStderr .ok).2.1 (by decide) (by decide)
  exact ⟨h1.1, h1.2 rfl, h2.1⟩

/-- C3: when the first `sriov_numvfs` write fails with the "device or
resource busy" error, `set_number_of_vfs_for_pf` and
`set_number_of_vfs_for_pf_by_pci` issue exactly one write of 0 followed
by exactly one retried write of the requested count, in that order, and
no other recovery writes; otherwise the single write is the whole
trace. -/
theorem set_number_of_vfs_busy_retry_spec (iface : String) (pci : PCIAddress)
    (n : Nat) (res : CmdResult) :
    (res.returnCode ≠ 0 → containsSub res.stderr "Device or resource busy" = true →
      set_number_of_vfs_for_pf iface n res =
        [sriovWriteCmd ("/sys/class/net/" ++ iface ++ "/device") n,
         sriovWriteCmd ("/sys/class/net/" ++ iface ++ "/device") 0,
         sriovWriteCmd ("/sys/class/net/" ++ iface ++ "/device") n] ∧
      set_number_of_vfs_for_pf_by_pci pci n res =
        [sriovWriteCmd ("/sys/bus/pci/devices/" ++ pci.render) n,
         sriovWriteCmd ("/sys/bus/pci/devices/" ++ pci.render) 0,
         sriovWriteCmd ("/sys/bus/pci/devices/" ++ pci.render) n]) ∧
    (containsSub res.stderr "Device or resource busy" = false →
      set_number_of_vfs_for_pf iface n res =
        [sriovWriteCmd ("/sys/class/net/" ++ iface ++ "/device") n] ∧
      set_number_of_vfs_for_pf_by_pci pci n res =
        [sriovWriteCmd ("/sys/bus/pci/devices/" ++ pci.render) n]) ∧
    (res.returnCode = 0 →
      set_number_of_vfs_for_pf iface n res =
        [sriovWriteCmd ("/sys/class/net/" ++ iface ++ "/device") n]) := by
  refine ⟨fun h1 h2 => ?_, fun h1 => ?_, fun h1 => ?_⟩ <;>
    simp [set_number_of_vfs_for_pf, set_number_of_vfs_for_pf_by_pci,
      sriovWriteTrace, h1]
  simp [h2]

/-- C3 (witness): the busy-write flow at the unit tests' concrete
inputs; the issued commands are byte-identical to the expected commands
of the tests (interface `eth1` with 4 VFs, PCI `0000:18:10.1` with 7). -/
theorem set_number_of_vfs_busy_retry_spec_witness :
    set_number_of_vfs_for_pf "eth1" 4 ⟨1, "", busyStderr⟩ =
      ["echo 4 > /sys/class/net/eth1/device/sriov_numvfs",
       "echo 0 > /sys/class/net/eth1/device/sriov_numvfs",
       "echo 4 > /sys/class/net/eth1/device/sriov_numvfs"] ∧
    set_number_of_vfs_for_pf_by_pci ⟨0, 24, 16, 1⟩ 7 ⟨1, "", busyStderr⟩ =
      ["echo 7 > /sys/bus/pci/devices/0000:18:10.1/sriov_numvfs",
       "echo 0 > /sys/bus/pci/devices/0000:18:10.1/sriov_numvfs",
       "echo 7 > /sys/bus/pci/devices/0000:18:10.1/sriov_numvfs"] ∧
    set_number_of_vfs_for_pf "eth1" 4 ⟨0, "", ""⟩ =
      ["echo 4 > /sys/class/net/eth1/device/sriov_numvfs"] :=
  ⟨((set_number_of_vfs_busy_retry_spec "eth1" ⟨0, 24, 16, 1⟩ 4 ⟨1, "", busyStderr⟩).1
      (by decide) (by decide)).1,
   ((set_number_of_vfs_busy_retry_spec "eth1" ⟨0, 24, 16, 1⟩ 7 ⟨1, "", busyStderr⟩).1
      (by decide) (by decide)).2,
   (set_number_of_vfs_busy_retry_spec "eth1" ⟨0, 24, 16, 1⟩ 4 ⟨0, "", ""⟩).2.2 rfl⟩

/-- C4: a VF-symlink listing that fails with "No such file or directory"
counts as zero observed VFs, so an expectation of 0 raises no error and
any other expectation raises the typed count-mismatch error; without
that failure the observed count is the number of `virtfn` entries and
any mismatch raises the typed error carrying both numbers; the error
message names the actual and expected counts. -/
theorem check_number_of_vfs_spec :
    (∀ res : CmdResult, containsSub res.stderr "No such file or directory" = true →
      check_number_of_vfs res 0 = .ok () ∧
      ∀ n, n ≠ 0 → check_number_of_vfs res n = .error (.vfMismatch 0 n)) ∧
    (∀ (res : CmdResult) (n : Nat),
      containsSub res.stderr "No such file or directory" = false →
      ((vfIdsFromListing res.stdout).length = n → check_number_of_vfs res n = .ok ()) ∧
      ((vfIdsFromListing res.stdout).length ≠ n →
        check_number_of_vfs res n =
          .error (.vfMismatch (vfIdsFromListing res.stdout).length n))) ∧
    (∀ actual expected : Nat, (KVMError.vfMismatch actual expected).message =
      "Mismatched count of expected and created VFs " ++ toString actual
        ++ " != " ++ toString expected) := by
  refine ⟨fun res h => ⟨?_, fun n hn => ?_⟩, fun res n h => ⟨fun hl => ?_, fun hl => ?_⟩,
    fun actual expected => rfl⟩
  · simp [check_number_of_vfs, h]
  · simp [check_number_of_vfs, h, Ne.symm hn]
  · simp [check_number_of_vfs, h, hl]
  · simp [check_number_of_vfs, h, hl]

/-- C4 (witness): the concrete unit-test scenarios: the
"No such file or directory" stderr with expectation 0 passes; the
three-entry listing with expectation 4 raises the mismatch error whose
message names 3 and 4. -/
theorem check_number_of_vfs_spec_witness :
    check_number_of_vfs ⟨2, "", noSuchFileStderr⟩ 0 = .ok () ∧
    check_number_of_vfs ⟨0, threeVfListing, ""⟩ 4 = .error (.vfMismatch 3 4) ∧
    (KVMError.vfMismatch 3 4).message =
      "Mismatched count of expected and created VFs 3 != 4" := by
  refine ⟨(check_number_of_vfs_spec.1 ⟨2, "", noSuchFileStderr⟩ (by decide)).1, ?_,
    check_number_of_vfs_spec.2.2 3 4⟩
  exact (check_number_of_vfs_spec.2.1 ⟨0, threeVfListing, ""⟩ 4 (by decide)).2 (by decide)

/-- C5: `get_dynamic_ram` subtracts the fixed 10000 MB host reserve from
the reported free memory, divides by the VM count and clamps the result
to the [2000 MB, 10000 MB] band; free memory below the reserve raises
the typed "not enough RAM" error; unusable query output yields the
default 2000 MB together with the logged fallback message.  Concretely,
with two VMs: 18000 gives 4000, 40000 clamps to 10000, 13000 clamps to
2000, 3000 raises, and empty output falls back to 2000 with the log. -/
theorem get_dynamic_ram_spec :
    (∀ (out : String) (free vm_number : Nat), parseNat out = some free →
      10000 ≤ free →
      get_dynamic_ram out vm_number =
        .ok (min (max ((free - 10000) / vm_number) 2000) 10000, none)) ∧
    (∀ (out : String) (free vm_number : Nat), parseNat out = some free →
      free < 10000 → get_dynamic_ram out vm_number = .error .notEnoughRam) ∧
    (∀ (out : String) (vm_number : Nat), parseNat out = none →
      get_dynamic_ram out vm_number = .ok (2000, some dynamicRamFallbackLog)) ∧
    get_dynamic_ram "18000" 2 = .ok (4000, none) ∧
    get_dynamic_ram "40000" 2 = .ok (10000, none) ∧
    get_dynamic_ram "13000" 2 = .ok (2000, none) ∧
    get_dynamic_ram "3000" 2 = .error .notEnoughRam ∧
    get_dynamic_ram "" 2 = .ok (2000, some dynamicRamFallbackLog) := by
  refine ⟨fun out free vm h h10 => ?_, fun out free vm h h10 => ?_,
    fun out vm h => ?_, rfl, rfl, rfl, rfl, rfl⟩ <;>
    simp [get_dynamic_ram, h]
  · omega
  · exact h10

/-- C5 (witness): the general clamp clause applied at the concrete
18000-MB query of the unit test. -/
theorem get_dynamic_ram_spec_witness :
    get_dynamic_ram "18000" 2 = .ok (4000, none) ∧
    get_dynamic_ram "3000" 2 = .error .notEnoughRam ∧
    get_dynamic_ram "" 2 = .ok (2000, some dynamicRamFallbackLog) :=
  ⟨get_dynamic_ram_spec.1 "18000" 18000 2 (by decide) (by omega),
   get_dynamic_ram_spec.2.1 "3000" 3000 2 (by decide) (by omega),
   get_dynamic_ram_spec.2.2.1 "" 2 (by decide)⟩

/-- C6: `attach_pci_controllers` never attempts an address whose
function exceeds 7 (or slot exceeds 31); it attaches as many controllers
as succeed, up to the requested number; when fewer than requested could
be created the typed error stating expected vs. created count is raised,
otherwise no error; the VM is restarted exactly once at the end iff at
least one controller attached.  Concretely (unit tests): starting at
slot 0x1F function 7 with 5 requested only 1 fits and the error message
names 5 and 1; starting at slot 0x1E function 5 with one double-use
attach failure the loop continues and still creates all 9; starting at
slot 0x1E function 6 all 9 fit. -/
theorem attach_pci_controllers_spec :
    (∀ (attachOk : Nat × Nat → Bool) (n b s f : Nat),
      (∀ a ∈ (attach_pci_controllers attachOk n b s f).attempts,
        a.func ≤ 7 ∧ a.slot ≤ 31) ∧
      (attach_pci_controllers attachOk n b s f).created =
        min n ((controllerCandidates s f).countP attachOk) ∧
      ((attach_pci_controllers attachOk n b s f).created < n →
        (attach_pci_controllers attachOk n b s f).error =
          some (.notEnoughPci n (attach_pci_controllers attachOk n b s f).created)) ∧
      (n ≤ (attach_pci_controllers attachOk n b s f).created →
        (attach_pci_controllers attachOk n b s f).error = none) ∧
      ((attach_pci_controllers attachOk n b s f).restarted = true ↔
        1 ≤ (attach_pci_controllers attachOk n b s f).created)) ∧
    (attach_pci_controllers (fun _ => true) 5 18 31 7).error.map KVMError.message =
      some ("Not enough free PCI devices. Cannot create expected number of PCI "
        ++ "Controllers: expected: 5, created: 1") ∧
    (attach_pci_controllers (fun c => !(c == (31, 0))) 9 18 30 5).created = 9 ∧
    (attach_pci_controllers (fun c => !(c == (31, 0))) 9 18 30 5).restarted = true ∧
    (attach_pci_controllers (fun c => !(c == (31, 0))) 9 18 30 5).error = none ∧
    (attach_pci_controllers (fun _ => true) 9 18 30 6).created = 9 ∧
    (attach_pci_controllers (fun _ => true) 9 18 30 6).restarted = true := by
  refine ⟨fun attachOk n b s f => ⟨?_, ?_, ?_, ?_, ?_⟩, by decide, by decide,
    by decide, by decide, by decide, by decide⟩
  · intro a ha
    simp only [attach_pci_controllers, List.mem_map] at ha
    obtain ⟨c, hc, rfl⟩ := ha
    have hmem := attachLoop_attempts_subset attachOk n _ c hc
    have hb := controllerCandidates_bounds s f c hmem
    exact ⟨hb.2, hb.1⟩
  · exact attachLoop_created_eq attachOk n _
  · intro h
    simp only [attach_pci_controllers] at h ⊢
    simp [h]
  · intro h
    simp only [attach_pci_controllers] at h ⊢
    simp [Nat.not_lt.mpr h]
  · simp [attach_pci_controllers]

/-- C6 (witness): the general clauses applied at the unit tests'
exhaustion scenario (start at slot 31, function 7, request 5): the
single attempted address is within the PCI limits, the created count is
1, the typed error names 5 expected and 1 created, and the VM restart
happens because one controller attached. -/
theorem attach_pci_controllers_spec_witness :
    (PCIAddress.mk 0 18 31 7).func ≤ 7 ∧ (PCIAddress.mk 0 18 31 7).slot ≤ 31 ∧
    (attach_pci_controllers (fun _ => true) 5 18 31 7).error =
      some (.notEnoughPci 5 1) ∧
    (attach_pci_controllers (fun _ => true) 5 18 31 7).restarted = true := by
  have h := (attach_pci_controllers_spec.1 (fun _ => true) 5 18 31 7)
  have ha := h.1 ⟨0, 18, 31, 7⟩ (by decide)
  have he := h.2.2.1 (by decide)
  have hr := h.2.2.2.2.mpr (by decide)
  exact ⟨ha.1, ha.2, he, hr⟩

/-- C7: parsed from the five-entry symlink listing of the unit test,
`get_vfs_id_for_pf` returns `[0, 1, 2, 3, 25]`, which is strictly
ascending; each id is the integer of the `virtfnN` link name, not the
function of the target address (a `virtfn7` entry pointing at function 1
yields 7); output matching no `virtfn` entry raises the typed VF
error. -/
theorem get_vfs_id_for_pf_spec :
    get_vfs_id_for_pf "eth1" testVfListing = .ok [0, 1, 2, 3, 25] ∧
    List.Chain' (· < ·) [0, 1, 2, 3, 25] ∧
    lineVfId "virtfn7 -> ../0000:18:10.1".toList = some 7 ∧
    lineVfId "virtfn25 -> ../0000:18:10.19".toList = some 25 ∧
    get_vfs_id_for_pf "eth1" "broken output" = .error (.vfNotFound "eth1") :=
  ⟨rfl, by norm_num [List.chain'_cons], rfl, rfl, rfl⟩

/-- C8: `get_mng_ip_for_vm` raises the typed "VM was unable to boot"
error naming the retry count when the agent query fails on every
attempt, and raises the distinct typed "management IP unavailable" error
naming the MAC when the query answers but the loopback/link-local
filtering leaves no IPv4 address for the MAC on any attempt. -/
theorem get_mng_ip_for_vm_spec (mac : String) (answers : List AgentAnswer) :
    ((∀ a ∈ answers, a = .failed) →
      get_mng_ip_for_vm mac answers = .error (.vmNotRun answers.length)) ∧
    ((∃ a ∈ answers, isTableAnswer a = true) →
      (∀ a ∈ answers, answerHasNoGoodIp mac a = true) →
      get_mng_ip_for_vm mac answers = .error (.mngIpNotAvailable mac)) ∧
    (∀ (tries : Nat) (mac2 : String),
      VirshError.vmNotRun tries ≠ VirshError.mngIpNotAvailable mac2) := by
  refine ⟨fun h => ?_, fun hex hnone => ?_, fun tries mac2 => by simp⟩
  · have hno : ∀ a ∈ answers, answerHasNoGoodIp mac a = true := by
      intro a ha; rw [h a ha]; rfl
    have hany : answers.any isTableAnswer = false := by
      rw [List.any_eq_false]
      intro a ha
      rw [h a ha]
      simp [isTableAnswer]
    rw [get_mng_ip_for_vm, mngIpLoop_no_good mac answers hno false, hany]
    rfl
  · have hany : answers.any isTableAnswer = true := by
      rw [List.any_eq_true]
      obtain ⟨a, ha, hta⟩ := hex
      exact ⟨a, ha, hta⟩
    rw [get_mng_ip_for_vm, mngIpLoop_no_good mac answers hnone false, hany]
    rfl

/-- C8 (witness): the two error paths at the unit tests' concrete data:
three failed query attempts raise the boot error naming 3 retries; a
table answer carrying only loopback / link-local / protocol-less rows
for the MAC raises the management-IP error naming the MAC. -/
theorem get_mng_ip_for_vm_spec_witness :
    get_mng_ip_for_vm "00:00:AA:BB:CC:00" [.failed, .failed, .failed] =
      .error (.vmNotRun 3) ∧
    get_mng_ip_for_vm "AA:BB:CC:DD:EE:FF" [.table localhostRows] =
      .error (.mngIpNotAvailable "AA:BB:CC:DD:EE:FF") ∧
    get_mng_ip_for_vm "52:54:00:5b:da:c4" [.table windowsLocalRows] =
      .error (.mngIpNotAvailable "52:54:00:5b:da:c4") :=
  ⟨(get_mng_ip_for_vm_spec "00:00:AA:BB:CC:00" [.failed, .failed, .failed]).1
      (by decide),
   (get_mng_ip_for_vm_spec "AA:BB:CC:DD:EE:FF" [.table localhostRows]).2.1
      (by decide) (by decide),
   (get_mng_ip_for_vm_spec "52:54:00:5b:da:c4" [.table windowsLocalRows]).2.1
      (by decide) (by decide)⟩

set_option maxRecDepth 8000 in
/-- C9: the rendered install command is a deterministic function of the
params (re-rendering yields byte-identical output); the emitted flag
tags of every rendering follow the one canonical flag order, so any two
flags appear in the same relative order regardless of which optional
fields are set; concretely, the renderings for the unit tests' base
params and large-vCPU params equal the tests' expected command
strings. -/
theorem install_command_stable_spec :
    (∀ p : VMParams, installCommand p = installCommand p) ∧
    (∀ p : VMParams, ((segments p).map Prod.fst).Sublist canonicalFlagOrder) ∧
    (∀ (p : VMParams) (t u : FlagTag),
      ([t, u] : List FlagTag).Sublist ((segments p).map Prod.fst) →
      ([t, u] : List FlagTag).Sublist canonicalFlagOrder) ∧
    installCommand testCreateVmParams =
      "virt-install --name=foo --memory=1024 --vcpus=2 --machine=pc --noautoconsole "
        ++ "--network=bridge:br0,mac=aa:bb:cc:dd:ee:62,model=virtio "
        ++ "--os-variant=rhel8.1 --disk=none --boot=network,hd,uefi --graphics none" ∧
    installCommand largeVcpuParams =
      "virt-install --name=foo --memory=1024 --vcpus=256 --machine=pc --noautoconsole "
        ++ "--iommu model=intel,driver.intremap=on,driver.eim=on,driver.caching_mode=on "
        ++ "--features apic=on,ioapic.driver=qemu "
        ++ "--network=bridge:br0,mac=aa:bb:cc:dd:ee:62,model=virtio "
        ++ "--os-variant=rhel8.1 --disk=none --boot=network,hd,uefi "
        ++ "--graphics none" :=
  ⟨fun _ => rfl, segments_tags_sublist,
   fun p _ _ h => h.trans (segments_tags_sublist p), rfl, rfl⟩

/-- C9 (witness): the order-stability clause applied to the concrete
test params for the name and boot flags (which the base rendering
emits in that order). -/
theorem install_command_stable_spec_witness :
    ([FlagTag.nameTag, FlagTag.bootTag] : List FlagTag).Sublist canonicalFlagOrder :=
  install_command_stable_spec.2.2.1 testCreateVmParams FlagTag.nameTag FlagTag.bootTag
    (by decide)

/-- C10: when the `virsh dumpxml` command exits with a nonzero return
code, `dump_xml_from_vm` returns `none` and only logs the failure — no
exception is raised at this interface (the return type is an optional
value); a zero exit code returns the XML text. -/
theorem dump_xml_from_vm_spec (res : CmdResult) :
    (res.returnCode ≠ 0 →
      dump_xml_from_vm res = (none, "Unable to fetch xml.")) ∧
    (res.returnCode = 0 →
      dump_xml_from_vm res = (some res.stdout, "XML dumped properly.")) := by
  refine ⟨fun h => ?_, fun h => ?_⟩ <;> simp [dump_xml_from_vm, h]

/-- C10 (witness): the failing unit-test scenario (`return_code=1`)
yields `none` with the logged message; the passing scenario yields the
dumped XML text. -/
theorem dump_xml_from_vm_spec_witness :
    dump_xml_from_vm ⟨1, "Some kind of error", ""⟩ =
      (none, "Unable to fetch xml.") ∧
    dump_xml_from_vm ⟨0, "<xml><tag1>content</tag1></xml>", ""⟩ =
      (some "<xml><tag1>content</tag1></xml>", "XML dumped properly.") :=
  ⟨(dump_xml_from_vm_spec ⟨1, "Some kind of error", ""⟩).1 (by decide),
   (dump_xml_from_vm_spec ⟨0, "<xml><tag1>content</tag1></xml>", ""⟩).2 rfl⟩

end MfdKvm
